import Mathlib

/-!
Verification development for the RepoSpector repository auditor
(src/RepoSpector.py).

The Python program is shallowly embedded as follows.

* An HTTP response is a status code plus a typed, already-JSON-decoded body
  (`HttpResponse`).  The client helper `GitHubAnalyzer.fetch_data` returns the
  body on status 200, raises `requests.exceptions.HTTPError` for statuses in
  400..599 (the semantics of `response.raise_for_status()`), and returns
  Python `None` for every other status; this three-way outcome is
  `FetchResult`.
* A check that may let a Python exception escape returns `Outcome String`
  (`ok message` or `exn exceptionName`); checks that cannot raise return the
  message directly.
* Python string operations are modelled on the character list `String.data`:
  `lowerStr` is `str.lower` (ASCII case folding, which coincides with Python
  on the ASCII texts involved), `strContains hay needle` is
  Python `needle in hay`, and `strLt` is Python lexicographic `<` on strings
  (code-point order).  The base64 transport encoding of the README content is
  modelled as the identity (decode after encode), so the `content` field of
  the README body holds the decoded text directly.
* `report_findings` is modelled as a function from a `World` (the responses
  the remote host would give for each resource the program reads) to a trace
  of events: one `Event.check` per executed check, in program order, and one
  `Event.ticket title body` per `create_issue` call issued by the remediation
  step, plus an `Option String` holding the name of an uncaught Python
  exception when the run aborts (`none` when the run completes).
* The mutable client handle of `GitHubAnalyzer.__init__` is the structure
  `GitHubAnalyzer`; `create_issue` returns the updated handle (its
  `self.headers.update(...)` line) together with the POST request it issues.
-/

/-! Python-string helpers (executable models of str.lower, in, <) -/

/-- Model of Python ASCII lowercasing, character by character. -/
def lowerStr (s : String) : String :=
  ⟨s.data.map Char.toLower⟩

/-- Model of Python substring containment over character lists:
`listContains needle hay` scans every suffix of `hay` for `needle` as a
prefix. -/
def listContains (needle : List Char) : List Char → Bool
  | [] => needle.isEmpty
  | c :: rest => List.isPrefixOf needle (c :: rest) || listContains needle rest

/-- Model of the Python expression `needle in hay` on strings. -/
def strContains (hay needle : String) : Bool :=
  listContains needle.data hay.data

/-- Lexicographic comparison of character lists by code point, the semantics
of Python string `<`. -/
def listLt : List Char → List Char → Bool
  | [], [] => false
  | [], _ :: _ => true
  | _ :: _, [] => false
  | a :: as, b :: bs =>
    if a.toNat < b.toNat then true
    else if b.toNat < a.toNat then false
    else listLt as bs

/-- Model of the Python expression `a < b` on strings. -/
def strLt (a b : String) : Bool :=
  listLt a.data b.data

/-! Remote resource client (GitHubAnalyzer.fetch_data, lines 14-19) -/

/-- An HTTP response: status code and the typed JSON-decoded body the host
would return for the resource. -/
structure HttpResponse (β : Type) where
  status : Nat
  body : β
deriving DecidableEq

/-- Outcome of `fetch_data`: the decoded body on status 200, a raised
`requests.exceptions.HTTPError` for a 4xx/5xx status (what
`raise_for_status()` does), and Python `None` for every other status
(`raise_for_status()` is a no-op outside 400..599 and the function falls
through returning `None`). -/
inductive FetchResult (β : Type) where
  | ok : β → FetchResult β
  | httpError : Nat → FetchResult β
  | noneValue : FetchResult β
deriving DecidableEq

/-- GitHubAnalyzer.fetch_data (lines 14-19). -/
def fetch_data {β : Type} (r : HttpResponse β) : FetchResult β :=
  if r.status = 200 then FetchResult.ok r.body
  else if 400 ≤ r.status ∧ r.status ≤ 599 then FetchResult.httpError r.status
  else FetchResult.noneValue

/-- Result of running a check: either its returned message, or the name of an
uncaught Python exception that escapes it. -/
inductive Outcome (α : Type) where
  | ok : α → Outcome α
  | exn : String → Outcome α
deriving DecidableEq

/-! Documentation check (check_documentation, lines 21-33) -/

/-- Body of the `/readme` resource; `content` holds the base64-decoded README
text (transport encoding modelled as the identity). -/
structure ReadmeBody where
  content : String
deriving DecidableEq

/-- The fixed policy list `essential_sections` (line 26). -/
def essential_sections : List String :=
  [ "installation", "usage", "contributing", "license", "changelog" ]

/-- The list comprehension of line 27: sections not contained in
`readme.lower()`. -/
def missingSections (readme : String) : List String :=
  essential_sections.filter (fun sec => ! strContains (lowerStr readme) sec)

/-- GitHubAnalyzer.check_documentation (lines 21-33).  A 4xx/5xx fetch is
caught as `requests.exceptions.HTTPError` and classified missing; a
non-200 non-error status makes `fetch_data` return `None`, so the
subscript `response['content']` raises an uncaught TypeError. -/
def check_documentation (r : HttpResponse ReadmeBody) : Outcome String :=
  match fetch_data r with
  | FetchResult.httpError _ => Outcome.ok "README.md file is missing."
  | FetchResult.noneValue => Outcome.exn "TypeError"
  | FetchResult.ok body =>
    let readme := body.content
    let missing_sections := missingSections readme
    if missing_sections.isEmpty then
      Outcome.ok "README.md is present and contains all essential sections."
    else
      Outcome.ok ("README.md is present but missing sections: " ++
        String.intercalate ", " missing_sections ++ ".")

/-! Issue resolution check (analyze_issues, lines 35-51) -/

/-- One element of a comment thread: its `body` text. -/
structure Comment where
  body : String
deriving DecidableEq

/-- One element of the open-issue list: the response the host gives for the
issue's `comments_url`, and the two timestamp strings. -/
structure IssueData where
  commentsResp : HttpResponse (List Comment)
  updated_at : String
  created_at : String
deriving DecidableEq

/-- Line 42: whether any comment of the thread contains "resolved"
case-insensitively. -/
def issueResolved (issue : IssueData) : Bool :=
  issue.commentsResp.body.any (fun c => strContains (lowerStr c.body) "resolved")

/-- The loop of lines 39-44: fetch each issue's comment thread in order and
keep the issues with no comment containing "resolved".  A failing or
non-200 comment fetch is not caught and aborts the run. -/
def collectUnresolvedIssues : List IssueData → Outcome (List IssueData)
  | [] => Outcome.ok []
  | issue :: rest =>
    match fetch_data issue.commentsResp with
    | FetchResult.httpError _ => Outcome.exn "HTTPError"
    | FetchResult.noneValue => Outcome.exn "TypeError"
    | FetchResult.ok comments =>
      let resolved := comments.any (fun c => strContains (lowerStr c.body) "resolved")
      match collectUnresolvedIssues rest with
      | Outcome.exn e => Outcome.exn e
      | Outcome.ok tail => Outcome.ok (if resolved then tail else issue :: tail)

/-- Line 45: the unresolved issues whose `updated_at` compares strictly
below `created_at` (Python string comparison, reproduced literally). -/
def inactiveFilter (unresolved_issues : List IssueData) : List IssueData :=
  unresolved_issues.filter (fun issue => strLt issue.updated_at issue.created_at)

/-- Lines 46-51: the result message of the issue check. -/
def issuesMessage (unresolved_issues inactive_issues : List IssueData) : String :=
  if unresolved_issues.isEmpty then "No unresolved open issues."
  else if ! inactive_issues.isEmpty then
    "Found " ++ toString unresolved_issues.length ++
      " unresolved open issues, including " ++ toString inactive_issues.length ++
      " with long inactivity."
  else
    "Found " ++ toString unresolved_issues.length ++ " unresolved open issues."

/-- GitHubAnalyzer.analyze_issues (lines 35-51).  The open-issues list fetch
is not wrapped in try/except, so any non-200 outcome aborts the run. -/
def analyze_issues (issuesResp : HttpResponse (List IssueData)) : Outcome String :=
  match fetch_data issuesResp with
  | FetchResult.httpError _ => Outcome.exn "HTTPError"
  | FetchResult.noneValue => Outcome.exn "TypeError"
  | FetchResult.ok open_issues =>
    match collectUnresolvedIssues open_issues with
    | Outcome.exn e => Outcome.exn e
    | Outcome.ok unresolved_issues =>
      Outcome.ok (issuesMessage unresolved_issues (inactiveFilter unresolved_issues))

/-! Pull request check (analyze_pull_requests, lines 53-68) -/

/-- One element of the open-pull-request list: the `merged_at` field (null or
a timestamp) and the response for its comments link. -/
structure PullData where
  merged_at : Option String
  commentsResp : HttpResponse (List Comment)
deriving DecidableEq

/-- Python truthiness of an optional string (None and the empty string are
falsy). -/
def pyTruthyOptStr : Option String → Bool
  | none => false
  | some s => ! s.isEmpty

/-- The loop of lines 57-64: skip pulls whose `merged_at` is truthy, fetch
comments of the rest, keep those with no comment containing "addressed". -/
def collectUnaddressedPulls : List PullData → Outcome (List PullData)
  | [] => Outcome.ok []
  | pull :: rest =>
    if pyTruthyOptStr pull.merged_at then collectUnaddressedPulls rest
    else
      match fetch_data pull.commentsResp with
      | FetchResult.httpError _ => Outcome.exn "HTTPError"
      | FetchResult.noneValue => Outcome.exn "TypeError"
      | FetchResult.ok comments =>
        let addressed := comments.any (fun c => strContains (lowerStr c.body) "addressed")
        match collectUnaddressedPulls rest with
        | Outcome.exn e => Outcome.exn e
        | Outcome.ok tail => Outcome.ok (if addressed then tail else pull :: tail)

/-- GitHubAnalyzer.analyze_pull_requests (lines 53-68). -/
def analyze_pull_requests (pullsResp : HttpResponse (List PullData)) : Outcome String :=
  match fetch_data pullsResp with
  | FetchResult.httpError _ => Outcome.exn "HTTPError"
  | FetchResult.noneValue => Outcome.exn "TypeError"
  | FetchResult.ok open_pulls =>
    match collectUnaddressedPulls open_pulls with
    | Outcome.exn e => Outcome.exn e
    | Outcome.ok unmerged_pulls =>
      Outcome.ok (if unmerged_pulls.isEmpty then "No unresolved open pull requests."
        else "Found " ++ toString unmerged_pulls.length ++ " unresolved open pull requests.")

/-! Dependency manifest check (check_dependencies, lines 70-81) -/

/-- The fixed manifest list of line 71. -/
def manifest_files : List String :=
  [ "package.json", "requirements.txt" ]

/-- One iteration of the loop of lines 73-80.  Only a raised
`requests.exceptions.HTTPError` (4xx/5xx) is caught and classified missing;
every other status (200 with a body, or a non-error non-200 status on which
`fetch_data` returns `None` unused) appends the found message. -/
def dependencyFileStatus (file_name : String) (r : HttpResponse Unit) : String :=
  match fetch_data r with
  | FetchResult.httpError _ => file_name ++ " is missing."
  | _ => file_name ++ " found and needs further analysis."

/-- GitHubAnalyzer.check_dependencies (lines 70-81); `contents path` is the
response the host gives for `{base_url}/contents/<path>`. -/
def check_dependencies (contents : String → HttpResponse Unit) : List String :=
  manifest_files.map (fun file_name => dependencyFileStatus file_name (contents file_name))

/-! Security advisory check (check_security, lines 83-92) -/

/-- Body of the vulnerability-alert summary. -/
structure SecurityBody where
  total_count : Int
deriving DecidableEq

/-- GitHubAnalyzer.check_security (lines 83-92). -/
def check_security (r : HttpResponse SecurityBody) : Outcome String :=
  match fetch_data r with
  | FetchResult.httpError _ => Outcome.ok "Could not retrieve security vulnerabilities."
  | FetchResult.noneValue => Outcome.exn "TypeError"
  | FetchResult.ok alerts =>
    if alerts.total_count = 0 then Outcome.ok "No reported vulnerabilities."
    else Outcome.ok ("Found " ++ toString alerts.total_count ++ " security vulnerabilities.")

/-! License check (check_license, lines 94-103) -/

/-- The license object of the license-metadata body. -/
structure LicenseInfo where
  name : String
deriving DecidableEq

/-- Body of the `/license` resource; the `license` field is an object or JSON
null (Python-falsy). -/
structure LicenseBody where
  license : Option LicenseInfo
deriving DecidableEq

/-- GitHubAnalyzer.check_license (lines 94-103). -/
def check_license (r : HttpResponse LicenseBody) : Outcome String :=
  match fetch_data r with
  | FetchResult.httpError _ => Outcome.ok "License file is missing."
  | FetchResult.noneValue => Outcome.exn "TypeError"
  | FetchResult.ok body =>
    match body.license with
    | some info => Outcome.ok ("License file is present with " ++ info.name ++ " license.")
    | none => Outcome.ok "License file is missing."

/-! Existence probes (lines 105-135) -/

/-- GitHubAnalyzer.check_contributing_guidelines (lines 105-111): only a
raised HTTPError is classified missing. -/
def check_contributing_guidelines (r : HttpResponse Unit) : String :=
  match fetch_data r with
  | FetchResult.httpError _ => "Contributing guidelines are missing."
  | _ => "Contributing guidelines are present."

/-- GitHubAnalyzer.check_issue_templates (lines 113-119). -/
def check_issue_templates (r : HttpResponse Unit) : String :=
  match fetch_data r with
  | FetchResult.httpError _ => "Issue templates are missing."
  | _ => "Issue templates are present."

/-- GitHubAnalyzer.check_pull_request_templates (lines 121-127). -/
def check_pull_request_templates (r : HttpResponse Unit) : String :=
  match fetch_data r with
  | FetchResult.httpError _ => "Pull request templates are missing."
  | _ => "Pull request templates are present."

/-- GitHubAnalyzer.check_changelog (lines 129-135). -/
def check_changelog (r : HttpResponse Unit) : String :=
  match fetch_data r with
  | FetchResult.httpError _ => "Changelog is missing."
  | _ => "Changelog is present."

/-! The mutable client handle (lines 7-12 and 184-195) -/

/-- The state of a GitHubAnalyzer instance: the four fields set by
`__init__`. -/
structure GitHubAnalyzer where
  token : String
  repo_name : String
  base_url : String
  headers : List (String × String)
deriving DecidableEq

/-- GitHubAnalyzer.__init__ (lines 8-12). -/
def GitHubAnalyzer.init (token repo_name : String) : GitHubAnalyzer :=
  { token := token
    repo_name := repo_name
    base_url := "https://api.github.com/repos/" ++ repo_name
    headers := [ ( "Authorization", "token " ++ token) ] }

/-- Python dict.update with a single key: overwrite the key if present,
append it otherwise. -/
def dictUpdate (d : List (String × String)) (k v : String) : List (String × String) :=
  if d.any (fun p => p.fst == k) then
    d.map (fun p => if p.fst == k then (k, v) else p)
  else d ++ [ (k, v) ]

/-- The POST request issued by create_issue. -/
structure IssueRequest where
  url : String
  title : String
  body : String
  headers : List (String × String)
deriving DecidableEq

/-- GitHubAnalyzer.create_issue (lines 184-195): mutates `self.headers` via
`self.headers.update({'Accept': 'application/vnd.github.v3+json'})` (line
190) and posts the issue; the response only affects console output. -/
def create_issue (self : GitHubAnalyzer) (title body : String) :
    GitHubAnalyzer × IssueRequest :=
  let url := self.base_url ++ "/issues"
  let self2 : GitHubAnalyzer :=
    { self with headers := dictUpdate self.headers "Accept" "application/vnd.github.v3+json" }
  (self2, { url := url, title := title, body := body, headers := self2.headers })

/-! Reporter / remediator (report_findings, lines 137-182) -/

/-- The responses the remote host gives for each resource the auditor
reads in one run. -/
structure World where
  readme : HttpResponse ReadmeBody
  issuesList : HttpResponse (List IssueData)
  pullsList : HttpResponse (List PullData)
  contents : String → HttpResponse Unit
  security : HttpResponse SecurityBody
  license : HttpResponse LicenseBody

/-- An observable event of one run: a check being executed (labelled as in
the rendered report) or a remediation ticket submission (`create_issue`
call with its title and body). -/
inductive Event where
  | check : String → Event
  | ticket : String → String → Event
deriving DecidableEq

/-- Sequence a fallible check into the run: record its check event; on an
uncaught exception the run aborts there. -/
def stepOutcome (name : String) (res : Outcome String)
    (k : String → List Event × Option String) : List Event × Option String :=
  match res with
  | Outcome.exn e => ([ Event.check name ], some e)
  | Outcome.ok s =>
    let r := k s
    (Event.check name :: r.1, r.2)

/-- Sequence an exception-free check into the run. -/
def stepValue {α : Type} (name : String) (v : α)
    (k : α → List Event × Option String) : List Event × Option String :=
  let r := k v
  (Event.check name :: r.1, r.2)

/-- One conditional create_issue call of lines 165-182. -/
def ticketIf (cond : Bool) (title body : String) : List Event :=
  if cond then [ Event.ticket title body ] else []

/-- The remediation step of lines 164-182: the nine substring predicates over
the collected statuses, in program order (no predicate exists for the
pull-request status). -/
def remediationTickets (documentation_status issues_status : String)
    (dependencies_status : List String)
    (security_status license_status contributing_status issue_templates_status
      pr_templates_status changelog_status : String) : List Event :=
  ticketIf (strContains (lowerStr documentation_status) "missing")
    "Missing README.md or essential sections" documentation_status ++
  ticketIf (strContains (lowerStr issues_status) "long inactivity")
    "Unresolved issues with long inactivity" issues_status ++
  ticketIf (dependencies_status.any (fun s => strContains (lowerStr s) "missing"))
    "Missing dependency files" (String.intercalate ", " dependencies_status) ++
  ticketIf (strContains (lowerStr security_status) "security vulnerabilities")
    "Security vulnerabilities detected" security_status ++
  ticketIf (strContains (lowerStr license_status) "missing")
    "License file missing" license_status ++
  ticketIf (strContains (lowerStr contributing_status) "missing")
    "Contributing guidelines missing" contributing_status ++
  ticketIf (strContains (lowerStr issue_templates_status) "missing")
    "Issue templates missing" issue_templates_status ++
  ticketIf (strContains (lowerStr pr_templates_status) "missing")
    "Pull request templates missing" pr_templates_status ++
  ticketIf (strContains (lowerStr changelog_status) "missing")
    "Changelog missing" changelog_status

/-- GitHubAnalyzer.report_findings (lines 137-182): the ten checks in program
order (labelled as in the report of lines 149-161), then the remediation
step; an uncaught exception in a check aborts the run at that check. -/
def report_findings (w : World) : List Event × Option String :=
  stepOutcome "Documentation" (check_documentation w.readme) fun documentation_status =>
  stepOutcome "Open Issues" (analyze_issues w.issuesList) fun issues_status =>
  stepOutcome "Open Pull Requests" (analyze_pull_requests w.pullsList) fun _pulls_status =>
  stepValue "Dependencies Status" (check_dependencies w.contents) fun dependencies_status =>
  stepOutcome "Security Status" (check_security w.security) fun security_status =>
  stepOutcome "License" (check_license w.license) fun license_status =>
  stepValue "Contributing Guidelines" (check_contributing_guidelines (w.contents "CONTRIBUTING.md")) fun contributing_status =>
  stepValue "Issue Templates" (check_issue_templates (w.contents ".github/ISSUE_TEMPLATE/")) fun issue_templates_status =>
  stepValue "Pull Request Templates" (check_pull_request_templates (w.contents ".github/PULL_REQUEST_TEMPLATE.md")) fun pr_templates_status =>
  stepValue "Changelog" (check_changelog (w.contents "CHANGELOG.md")) fun changelog_status =>
  (remediationTickets documentation_status issues_status dependencies_status
    security_status license_status contributing_status issue_templates_status
    pr_templates_status changelog_status, none)

/-- The fixed order in which report_findings runs the checks. -/
def checkOrder : List String :=
  [ "Documentation", "Open Issues", "Open Pull Requests", "Dependencies Status",
    "Security Status", "License", "Contributing Guidelines", "Issue Templates",
    "Pull Request Templates", "Changelog" ]

/-- The fixed order of the remediation predicates of lines 165-182, by ticket
title. -/
def remediationTitles : List String :=
  [ "Missing README.md or essential sections", "Unresolved issues with long inactivity",
    "Missing dependency files", "Security vulnerabilities detected", "License file missing",
    "Contributing guidelines missing", "Issue templates missing",
    "Pull request templates missing", "Changelog missing" ]

/-- Whether an event is a check execution. -/
def Event.isCheck : Event → Bool
  | Event.check _ => true
  | Event.ticket _ _ => false

/-- Whether an event is a ticket submission. -/
def Event.isTicket : Event → Bool
  | Event.check _ => false
  | Event.ticket _ _ => true

/-- The check label of an event, when it is a check execution. -/
def checkNameOf : Event → Option String
  | Event.check n => some n
  | Event.ticket _ _ => none

/-- The titles of the ticket submissions of a trace, in order. -/
def ticketTitles (tr : List Event) : List String :=
  tr.filterMap (fun e => match e with
    | Event.ticket t _ => some t
    | Event.check _ => none)

/-- The ticket submissions of a trace carrying a given title. -/
def ticketsTitled (t : String) (tr : List Event) : List Event :=
  tr.filter (fun e => match e with
    | Event.ticket t2 _ => t2 == t
    | Event.check _ => false)

/-! Concrete inputs used by the witness theorems -/

/-- An all-healthy world: every resource present, no issues or pulls, no
vulnerabilities. -/
def wOrdering : World :=
  ⟨⟨200, ⟨ "installation usage contributing license changelog"⟩⟩, ⟨200, []⟩, ⟨200, []⟩,
    fun _ => ⟨200, ()⟩, ⟨200, ⟨0⟩⟩, ⟨200, ⟨some ⟨ "MIT"⟩⟩⟩⟩

/-- A world whose README fetch returns 404 and everything else is healthy. -/
def wNoReadme : World :=
  ⟨⟨404, ⟨ ""⟩⟩, ⟨200, []⟩, ⟨200, []⟩, fun _ => ⟨200, ()⟩, ⟨200, ⟨0⟩⟩,
    ⟨200, ⟨some ⟨ "MIT"⟩⟩⟩⟩

/-- A healthy world whose vulnerability summary reports three alerts. -/
def wSecurityThree : World :=
  ⟨⟨200, ⟨ "installation usage contributing license changelog"⟩⟩, ⟨200, []⟩, ⟨200, []⟩,
    fun _ => ⟨200, ()⟩, ⟨200, ⟨3⟩⟩, ⟨200, ⟨some ⟨ "MIT"⟩⟩⟩⟩

/-- A healthy world whose vulnerability summary fetch fails with status 500. -/
def wSecurityDown : World :=
  ⟨⟨200, ⟨ "installation usage contributing license changelog"⟩⟩, ⟨200, []⟩, ⟨200, []⟩,
    fun _ => ⟨200, ()⟩, ⟨500, ⟨0⟩⟩, ⟨200, ⟨some ⟨ "MIT"⟩⟩⟩⟩

/-- A README response containing all five keywords in mixed casing. -/
def readmeAllSections : HttpResponse ReadmeBody :=
  ⟨200, ⟨ "Installation USAGE Contributing LICENSE Changelog"⟩⟩

/-- A README response missing exactly the license and changelog keywords. -/
def readmeThreeSections : HttpResponse ReadmeBody :=
  ⟨200, ⟨ "installation usage contributing"⟩⟩

/-- Two open issues whose comment threads never mention "resolved". -/
def issuesNoResolved : HttpResponse (List IssueData) :=
  ⟨200, [ ⟨⟨200, [ ⟨ "still broken"⟩ ]⟩, "2024-02-01T00:00:00Z", "2024-01-01T00:00:00Z"⟩,
          ⟨⟨200, []⟩, "2024-03-01T00:00:00Z", "2024-01-15T00:00:00Z"⟩ ]⟩

/-- An issue with a "resolved" comment whose updated_at precedes its
created_at. -/
def resolvedStaleIssue : IssueData :=
  ⟨⟨200, [ ⟨ "This was resolved yesterday."⟩ ]⟩, "2020-01-01T00:00:00Z",
    "2021-01-01T00:00:00Z"⟩

/-- An unresolved issue whose updated_at precedes its created_at. -/
def staleUnresolvedIssue : IssueData :=
  ⟨⟨200, [ ⟨ "needs work"⟩ ]⟩, "2020-05-01T00:00:00Z", "2021-06-01T00:00:00Z"⟩

/-- An open-issue list containing only `staleUnresolvedIssue`. -/
def staleIssues : HttpResponse (List IssueData) :=
  ⟨200, [ staleUnresolvedIssue ]⟩

/-! Helper lemmas about the client and the trace combinators -/

/-- fetch_data on a 200 response returns the body. -/
theorem fetch_data_of_ok {β : Type} (r : HttpResponse β) (h : r.status = 200) :
    fetch_data r = FetchResult.ok r.body := by
  simp [fetch_data, h]

/-- fetch_data on a 4xx/5xx response raises HTTPError carrying the status. -/
theorem fetch_data_of_httpError {β : Type} (r : HttpResponse β)
    (h1 : 400 ≤ r.status) (h2 : r.status ≤ 599) :
    fetch_data r = FetchResult.httpError r.status := by
  have hne : ¬ r.status = 200 := by omega
  simp [fetch_data, hne, h1, h2]

/-- A conditional ticket chunk contains no check events. -/
theorem ticketIf_filter_isCheck (b : Bool) (t s : String) :
    (ticketIf b t s).filter Event.isCheck = [] := by
  cases b <;> simp [ticketIf, Event.isCheck]

/-- A conditional ticket chunk consists only of ticket events. -/
theorem ticketIf_filter_isTicket (b : Bool) (t s : String) :
    (ticketIf b t s).filter Event.isTicket = ticketIf b t s := by
  cases b <;> simp [ticketIf, Event.isTicket]

/-- The titles of a conditional ticket chunk form a sublist of its fixed
title. -/
theorem ticketIf_titles_sublist (b : Bool) (t s : String) :
    (ticketTitles (ticketIf b t s)).Sublist [ t ] := by
  cases b <;> simp [ticketIf, ticketTitles]

/-- A conditional ticket chunk contributes no check names. -/
theorem ticketIf_checkNames (b : Bool) (t s : String) :
    (ticketIf b t s).filterMap checkNameOf = [] := by
  cases b <;> simp [ticketIf, checkNameOf]

/-- ticketTitles distributes over trace concatenation. -/
theorem ticketTitles_append (a b : List Event) :
    ticketTitles (a ++ b) = ticketTitles a ++ ticketTitles b := by
  simp [ticketTitles]

/-- ticketsTitled distributes over trace concatenation. -/
theorem ticketsTitled_append (t : String) (a b : List Event) :
    ticketsTitled t (a ++ b) = ticketsTitled t a ++ ticketsTitled t b := by
  simp [ticketsTitled]

/-- The check names of a pure check-event trace are the names themselves. -/
theorem map_check_filterMap_checkNameOf (names : List String) :
    (names.map Event.check).filterMap checkNameOf = names := by
  induction names with
  | nil => rfl
  | cons a rest ih => simp [checkNameOf, ih]

/-- A pure check-event trace is untouched by the check-event filter. -/
theorem map_check_filter_isCheck (names : List String) :
    (names.map Event.check).filter Event.isCheck = names.map Event.check := by
  induction names with
  | nil => rfl
  | cons a rest ih => simp [Event.isCheck, ih]

/-- A pure check-event trace contains no ticket events. -/
theorem map_check_filter_isTicket (names : List String) :
    (names.map Event.check).filter Event.isTicket = [] := by
  induction names with
  | nil => rfl
  | cons a rest ih => simp [Event.isTicket, ih]

/-- A pure check-event trace carries no ticket titles. -/
theorem map_check_ticketTitles (names : List String) :
    ticketTitles (names.map Event.check) = [] := by
  induction names with
  | nil => rfl
  | cons a rest ih => simp [ticketTitles] at ih ⊢

/-- A pure check-event trace carries no titled tickets. -/
theorem map_check_ticketsTitled (t : String) (names : List String) :
    ticketsTitled t (names.map Event.check) = [] := by
  induction names with
  | nil => rfl
  | cons a rest ih => simp [ticketsTitled] at ih ⊢

/-- A chunk with a different fixed title contributes no tickets of the
given title. -/
theorem ticketsTitled_ticketIf_ne (t t2 s : String) (b : Bool) (h : (t2 == t) = false) :
    ticketsTitled t (ticketIf b t2 s) = [] := by
  cases b <;> simp [ticketsTitled, ticketIf, h]

/-- A fired chunk with the given title contributes exactly its ticket. -/
theorem ticketsTitled_ticketIf_self (t s : String) (b : Bool) (h : b = true) :
    ticketsTitled t (ticketIf b t s) = [ Event.ticket t s ] := by
  subst h; simp [ticketsTitled, ticketIf]

/-- The remediation step emits no check events. -/
theorem remediationTickets_filter_isCheck (d i : String) (dep : List String)
    (s l c it pt ch : String) :
    (remediationTickets d i dep s l c it pt ch).filter Event.isCheck = [] := by
  simp [remediationTickets, List.filter_append, ticketIf_filter_isCheck]

/-- The remediation step emits only ticket events. -/
theorem remediationTickets_filter_isTicket (d i : String) (dep : List String)
    (s l c it pt ch : String) :
    (remediationTickets d i dep s l c it pt ch).filter Event.isTicket =
      remediationTickets d i dep s l c it pt ch := by
  simp [remediationTickets, List.filter_append, ticketIf_filter_isTicket]

/-- The remediation step contributes no check names. -/
theorem remediationTickets_checkNames (d i : String) (dep : List String)
    (s l c it pt ch : String) :
    (remediationTickets d i dep s l c it pt ch).filterMap checkNameOf = [] := by
  simp [remediationTickets, List.filterMap_append, ticketIf_checkNames]

/-- The ticket titles emitted by the remediation step form a sublist of the
fixed predicate-order title list. -/
theorem remediationTickets_titles_sublist (d i : String) (dep : List String)
    (s l c it pt ch : String) :
    (ticketTitles (remediationTickets d i dep s l c it pt ch)).Sublist remediationTitles := by
  show (ticketTitles (remediationTickets d i dep s l c it pt ch)).Sublist
    ([ "Missing README.md or essential sections" ] ++ [ "Unresolved issues with long inactivity" ] ++
      [ "Missing dependency files" ] ++ [ "Security vulnerabilities detected" ] ++
      [ "License file missing" ] ++ [ "Contributing guidelines missing" ] ++
      [ "Issue templates missing" ] ++ [ "Pull request templates missing" ] ++
      [ "Changelog missing" ])
  rw [remediationTickets, ticketTitles_append, ticketTitles_append, ticketTitles_append,
    ticketTitles_append, ticketTitles_append, ticketTitles_append, ticketTitles_append,
    ticketTitles_append]
  refine List.Sublist.append ?_ (ticketIf_titles_sublist _ _ _)
  refine List.Sublist.append ?_ (ticketIf_titles_sublist _ _ _)
  refine List.Sublist.append ?_ (ticketIf_titles_sublist _ _ _)
  refine List.Sublist.append ?_ (ticketIf_titles_sublist _ _ _)
  refine List.Sublist.append ?_ (ticketIf_titles_sublist _ _ _)
  refine List.Sublist.append ?_ (ticketIf_titles_sublist _ _ _)
  refine List.Sublist.append ?_ (ticketIf_titles_sublist _ _ _)
  exact List.Sublist.append (ticketIf_titles_sublist _ _ _) (ticketIf_titles_sublist _ _ _)

/-- When the five fallible checks return messages, the trace of
report_findings is the ten check events in fixed order followed by the
remediation tickets, and the run completes. -/
theorem report_findings_of_ok (w : World) (d i p s l : String)
    (hd : check_documentation w.readme = Outcome.ok d)
    (hi : analyze_issues w.issuesList = Outcome.ok i)
    (hp : analyze_pull_requests w.pullsList = Outcome.ok p)
    (hs : check_security w.security = Outcome.ok s)
    (hl : check_license w.license = Outcome.ok l) :
    report_findings w =
      (checkOrder.map Event.check ++
        remediationTickets d i (check_dependencies w.contents) s l
          (check_contributing_guidelines (w.contents "CONTRIBUTING.md"))
          (check_issue_templates (w.contents ".github/ISSUE_TEMPLATE/"))
          (check_pull_request_templates (w.contents ".github/PULL_REQUEST_TEMPLATE.md"))
          (check_changelog (w.contents "CHANGELOG.md")), none) := by
  simp [report_findings, stepOutcome, stepValue, hd, hi, hp, hs, hl, checkOrder]

/-- A completed run means each fallible check returned a message. -/
theorem checks_ok_of_complete (w : World) (h : (report_findings w).2 = none) :
    ∃ d i p s l, check_documentation w.readme = Outcome.ok d ∧
      analyze_issues w.issuesList = Outcome.ok i ∧
      analyze_pull_requests w.pullsList = Outcome.ok p ∧
      check_security w.security = Outcome.ok s ∧
      check_license w.license = Outcome.ok l := by
  cases hd : check_documentation w.readme with
  | exn e => simp [report_findings, stepOutcome, hd] at h
  | ok d =>
  cases hi : analyze_issues w.issuesList with
  | exn e => simp [report_findings, stepOutcome, hd, hi] at h
  | ok i =>
  cases hp : analyze_pull_requests w.pullsList with
  | exn e => simp [report_findings, stepOutcome, hd, hi, hp] at h
  | ok p =>
  cases hs : check_security w.security with
  | exn e => simp [report_findings, stepOutcome, stepValue, hd, hi, hp, hs] at h
  | ok s =>
  cases hl : check_license w.license with
  | exn e => simp [report_findings, stepOutcome, stepValue, hd, hi, hp, hs, hl] at h
  | ok l => exact ⟨d, i, p, s, l, rfl, rfl, rfl, rfl, rfl⟩

/-- When every comment-thread fetch answers 200, the issue loop completes and
keeps exactly the issues with no "resolved" comment. -/
theorem collectUnresolvedIssues_of_ok (issues : List IssueData)
    (hc : ∀ issue ∈ issues, issue.commentsResp.status = 200) :
    collectUnresolvedIssues issues =
      Outcome.ok (issues.filter (fun issue => ! issueResolved issue)) := by
  induction issues with
  | nil => rfl
  | cons issue rest ih =>
    have h200 := hc issue (List.mem_cons_self issue rest)
    have hf : fetch_data issue.commentsResp = FetchResult.ok issue.commentsResp.body :=
      fetch_data_of_ok _ h200
    have ih2 := ih (fun i hi => hc i (List.mem_cons_of_mem _ hi))
    cases hres : issueResolved issue with
    | true =>
      have hres2 := hres
      rw [issueResolved] at hres2
      simp only [collectUnresolvedIssues, hf, ih2, hres2, List.filter_cons, hres]
      simp
    | false =>
      have hres2 := hres
      rw [issueResolved] at hres2
      simp only [collectUnresolvedIssues, hf, ih2, hres2, List.filter_cons, hres]
      simp

/-! Claim theorems -/

/-- C1 counterexample: a 304 response for the manifest path package.json is
not a 2xx status, yet the dependency check classifies it "found and needs
further analysis", and fetch_data returns Python None rather than failing
with an error carrying the status.  The claim that every non-2xx status
yields "missing" (and that every non-success fetch fails) is therefore
false. -/
theorem dependencyFileStatus_304_counterexample :
    dependencyFileStatus "package.json" ⟨304, ()⟩ =
      "package.json found and needs further analysis." ∧
    fetch_data (⟨304, ()⟩ : HttpResponse Unit) = FetchResult.noneValue ∧
    ¬ (200 ≤ 304 ∧ 304 < 300) := by
  decide

/-- C1 (amended): for every manifest path, a fetch answered with a 4xx/5xx
status yields the "missing" classification and fetch fails with an error
carrying the status; every other status (200 as well as non-2xx statuses
outside 400..599, on which fetch returns no value without failing) yields
"needs further analysis"; no classification other than these two is
possible. -/
theorem dependencyFileStatus_classification (file_name : String) (r : HttpResponse Unit) :
    (400 ≤ r.status ∧ r.status ≤ 599 →
      dependencyFileStatus file_name r = file_name ++ " is missing." ∧
        fetch_data r = FetchResult.httpError r.status) ∧
    (¬ (400 ≤ r.status ∧ r.status ≤ 599) →
      dependencyFileStatus file_name r = file_name ++ " found and needs further analysis.") ∧
    (dependencyFileStatus file_name r = file_name ++ " is missing." ∨
      dependencyFileStatus file_name r = file_name ++ " found and needs further analysis.") := by
  by_cases herr : 400 ≤ r.status ∧ r.status ≤ 599
  · have hne : ¬ r.status = 200 := by omega
    have hf : fetch_data r = FetchResult.httpError r.status := by
      simp [fetch_data, hne, herr]
    refine ⟨fun _ => ⟨?_, hf⟩, fun hc => absurd herr hc, Or.inl ?_⟩ <;>
      simp [dependencyFileStatus, hf]
  · by_cases h200 : r.status = 200
    · have hf : fetch_data r = FetchResult.ok r.body := by simp [fetch_data, h200]
      refine ⟨fun hc => absurd hc herr, fun _ => ?_, Or.inr ?_⟩ <;>
        simp [dependencyFileStatus, hf]
    · have hf : fetch_data r = FetchResult.noneValue := by simp [fetch_data, h200, herr]
      refine ⟨fun hc => absurd hc herr, fun _ => ?_, Or.inr ?_⟩ <;>
        simp [dependencyFileStatus, hf]

/-- C1 witness: the amended classification at the concrete input 404. -/
theorem dependencyFileStatus_classification_witness :
    dependencyFileStatus "package.json" ⟨404, ()⟩ = "package.json is missing." ∧
    fetch_data (⟨404, ()⟩ : HttpResponse Unit) = FetchResult.httpError 404 :=
  (dependencyFileStatus_classification "package.json" ⟨404, ()⟩).1 (by decide)

/-- C2 counterexample: create_issue mutates the client handle: the headers
dictionary differs after a ticket creation (line 190 inserts the Accept
header), so the claim that no operation modifies any field of the client
state is false. -/
theorem create_issue_mutates_headers :
    (create_issue (GitHubAnalyzer.init "t" "owner/repo") "Some title" "Some body").1.headers ≠
      (GitHubAnalyzer.init "t" "owner/repo").headers := by
  decide

/-- C2 (amended): the token, repository name and base URL of the client
handle are read-only after construction; the headers dictionary is the one
exception: ticket creation updates it by inserting the fixed Accept header,
and no operation modifies anything else. -/
theorem create_issue_core_fields (self : GitHubAnalyzer) (title body : String) :
    (create_issue self title body).1.token = self.token ∧
    (create_issue self title body).1.repo_name = self.repo_name ∧
    (create_issue self title body).1.base_url = self.base_url ∧
    (create_issue self title body).1.headers =
      dictUpdate self.headers "Accept" "application/vnd.github.v3+json" := by
  refine ⟨rfl, rfl, rfl, rfl⟩

/-- C3: in one audit run the executed checks form a prefix of the fixed
order Documentation, Issues, Pull Requests, Dependencies, Security, License,
Contributing, Issue Templates, PR Templates, Changelog; the trace is all
check events followed by all ticket submissions; the submitted ticket titles
follow the fixed predicate order; and when the run completes, all ten checks
executed in exactly the fixed order. -/
theorem report_findings_ordering (w : World) :
    ((report_findings w).1.filterMap checkNameOf) <+: checkOrder ∧
    (report_findings w).1 =
      (report_findings w).1.filter Event.isCheck ++ (report_findings w).1.filter Event.isTicket ∧
    (ticketTitles (report_findings w).1).Sublist remediationTitles ∧
    ((report_findings w).2 = none →
      (report_findings w).1.filterMap checkNameOf = checkOrder) := by
  cases hd : check_documentation w.readme with
  | exn e =>
    have hr1 : (report_findings w).1 = [ Event.check "Documentation" ] := by
      simp [report_findings, stepOutcome, hd]
    have hr2 : (report_findings w).2 = some e := by
      simp [report_findings, stepOutcome, hd]
    rw [hr1, hr2]
    exact ⟨by decide, by decide, by decide, by simp⟩
  | ok d =>
  cases hi : analyze_issues w.issuesList with
  | exn e =>
    have hr1 : (report_findings w).1 =
        [ Event.check "Documentation", Event.check "Open Issues" ] := by
      simp [report_findings, stepOutcome, hd, hi]
    have hr2 : (report_findings w).2 = some e := by
      simp [report_findings, stepOutcome, hd, hi]
    rw [hr1, hr2]
    exact ⟨by decide, by decide, by decide, by simp⟩
  | ok i =>
  cases hp : analyze_pull_requests w.pullsList with
  | exn e =>
    have hr1 : (report_findings w).1 =
        [ Event.check "Documentation", Event.check "Open Issues",
          Event.check "Open Pull Requests" ] := by
      simp [report_findings, stepOutcome, hd, hi, hp]
    have hr2 : (report_findings w).2 = some e := by
      simp [report_findings, stepOutcome, hd, hi, hp]
    rw [hr1, hr2]
    exact ⟨by decide, by decide, by decide, by simp⟩
  | ok p =>
  cases hs : check_security w.security with
  | exn e =>
    have hr1 : (report_findings w).1 =
        [ Event.check "Documentation", Event.check "Open Issues",
          Event.check "Open Pull Requests", Event.check "Dependencies Status",
          Event.check "Security Status" ] := by
      simp [report_findings, stepOutcome, stepValue, hd, hi, hp, hs]
    have hr2 : (report_findings w).2 = some e := by
      simp [report_findings, stepOutcome, stepValue, hd, hi, hp, hs]
    rw [hr1, hr2]
    exact ⟨by decide, by decide, by decide, by simp⟩
  | ok s =>
  cases hl : check_license w.license with
  | exn e =>
    have hr1 : (report_findings w).1 =
        [ Event.check "Documentation", Event.check "Open Issues",
          Event.check "Open Pull Requests", Event.check "Dependencies Status",
          Event.check "Security Status", Event.check "License" ] := by
      simp [report_findings, stepOutcome, stepValue, hd, hi, hp, hs, hl]
    have hr2 : (report_findings w).2 = some e := by
      simp [report_findings, stepOutcome, stepValue, hd, hi, hp, hs, hl]
    rw [hr1, hr2]
    exact ⟨by decide, by decide, by decide, by simp⟩
  | ok l =>
    have hr := report_findings_of_ok w d i p s l hd hi hp hs hl
    rw [hr]
    refine ⟨?_, ?_, ?_, fun _ => ?_⟩
    · simp only [List.filterMap_append, map_check_filterMap_checkNameOf,
        remediationTickets_checkNames, List.append_nil]
      exact ⟨[], by simp⟩
    · simp only [List.filter_append, map_check_filter_isCheck, map_check_filter_isTicket,
        remediationTickets_filter_isCheck, remediationTickets_filter_isTicket,
        List.append_nil, List.nil_append]
    · simp only [ticketTitles_append, map_check_ticketTitles, List.nil_append]
      exact remediationTickets_titles_sublist _ _ _ _ _ _ _ _ _
    · simp only [List.filterMap_append, map_check_filterMap_checkNameOf,
        remediationTickets_checkNames, List.append_nil]

/-- C3 witness: on a concrete completing world the executed checks are
exactly the fixed order. -/
theorem report_findings_ordering_witness :
    List.filterMap checkNameOf (report_findings wOrdering).1 = checkOrder :=
  (report_findings_ordering wOrdering).2.2.2 (by decide)

/-- C4: every documentation text that contains all five required keywords as
case-insensitive substrings is classified "complete" by the documentation
check. -/
theorem check_documentation_complete (r : HttpResponse ReadmeBody)
    (h200 : r.status = 200)
    (hall : ∀ sec ∈ essential_sections, strContains (lowerStr r.body.content) sec = true) :
    check_documentation r =
      Outcome.ok "README.md is present and contains all essential sections." := by
  have hf : fetch_data r = FetchResult.ok r.body := fetch_data_of_ok _ h200
  have hm : missingSections r.body.content = [] := by
    simp only [missingSections]
    rw [List.filter_eq_nil_iff]
    intro sec hsec
    simp [hall sec hsec]
  simp [check_documentation, hf, hm]

/-- C4 witness: a mixed-casing README containing all five keywords. -/
theorem check_documentation_complete_witness :
    check_documentation readmeAllSections =
      Outcome.ok "README.md is present and contains all essential sections." :=
  check_documentation_complete readmeAllSections (by decide) (by decide)

/-- C5: a documentation text missing exactly the keywords license and
changelog is classified with the message naming precisely that subset in
the fixed policy order, license before changelog. -/
theorem check_documentation_missing_pair (r : HttpResponse ReadmeBody)
    (h200 : r.status = 200)
    (h1 : strContains (lowerStr r.body.content) "installation" = true)
    (h2 : strContains (lowerStr r.body.content) "usage" = true)
    (h3 : strContains (lowerStr r.body.content) "contributing" = true)
    (h4 : strContains (lowerStr r.body.content) "license" = false)
    (h5 : strContains (lowerStr r.body.content) "changelog" = false) :
    check_documentation r =
      Outcome.ok "README.md is present but missing sections: license, changelog." := by
  have hf : fetch_data r = FetchResult.ok r.body := fetch_data_of_ok _ h200
  have hm : missingSections r.body.content = [ "license", "changelog" ] := by
    simp [missingSections, essential_sections, h1, h2, h3, h4, h5]
  simp [check_documentation, hf, hm]
  decide

/-- C5 witness: a README containing only the first three keywords. -/
theorem check_documentation_missing_pair_witness :
    check_documentation readmeThreeSections =
      Outcome.ok "README.md is present but missing sections: license, changelog." :=
  check_documentation_missing_pair readmeThreeSections (by decide) (by decide) (by decide)
    (by decide) (by decide) (by decide)

/-- C6: when no comment thread of any open issue contains "resolved"
case-insensitively, every issue is classified unresolved and the reported
message counts exactly the open issues. -/
theorem analyze_issues_all_unresolved (resp : HttpResponse (List IssueData))
    (h200 : resp.status = 200)
    (hc : ∀ issue ∈ resp.body, issue.commentsResp.status = 200)
    (hres : ∀ issue ∈ resp.body, ∀ c ∈ issue.commentsResp.body,
      strContains (lowerStr c.body) "resolved" = false) :
    collectUnresolvedIssues resp.body = Outcome.ok resp.body ∧
    analyze_issues resp =
      Outcome.ok (issuesMessage resp.body (inactiveFilter resp.body)) := by
  have hfilter : resp.body.filter (fun issue => ! issueResolved issue) = resp.body := by
    rw [List.filter_eq_self]
    intro issue hmem
    have hr : issueResolved issue = false := by
      rw [issueResolved, List.any_eq_false]
      intro c hcmem
      simp [hres issue hmem c hcmem]
    simp [hr]
  have hcol := collectUnresolvedIssues_of_ok resp.body hc
  rw [hfilter] at hcol
  have hf : fetch_data resp = FetchResult.ok resp.body := fetch_data_of_ok _ h200
  exact ⟨hcol, by simp [analyze_issues, hf, hcol]⟩

/-- C6 witness: two open issues with no "resolved" comment. -/
theorem analyze_issues_all_unresolved_witness :
    collectUnresolvedIssues issuesNoResolved.body = Outcome.ok issuesNoResolved.body ∧
    analyze_issues issuesNoResolved =
      Outcome.ok (issuesMessage issuesNoResolved.body (inactiveFilter issuesNoResolved.body)) :=
  analyze_issues_all_unresolved issuesNoResolved (by decide) (by decide) (by decide)

/-- C7 counterexample: an issue whose updated_at precedes its created_at but
whose own comment thread contains "resolved" is excluded from the unresolved
set and hence not counted inactive: the check reports no unresolved issues
at all, refuting the claim that any such issue is counted inactive. -/
theorem inactive_not_counted_counterexample :
    strLt resolvedStaleIssue.updated_at resolvedStaleIssue.created_at = true ∧
    analyze_issues ⟨200, [ resolvedStaleIssue ]⟩ = Outcome.ok "No unresolved open issues." := by
  decide

/-- C7 (amended): every issue classified unresolved (no comment of its thread
contains "resolved") whose recorded updated_at compares lexicographically
strictly below its created_at is counted inactive, regardless of the
resolution status of the other issues, and the reported message carries the
long-inactivity count. -/
theorem analyze_issues_unresolved_stale_inactive (resp : HttpResponse (List IssueData))
    (issue : IssueData)
    (h200 : resp.status = 200)
    (hc : ∀ i ∈ resp.body, i.commentsResp.status = 200)
    (hmem : issue ∈ resp.body)
    (hunres : ∀ c ∈ issue.commentsResp.body, strContains (lowerStr c.body) "resolved" = false)
    (hstale : strLt issue.updated_at issue.created_at = true) :
    ∃ unresolved_issues,
      collectUnresolvedIssues resp.body = Outcome.ok unresolved_issues ∧
      issue ∈ inactiveFilter unresolved_issues ∧
      inactiveFilter unresolved_issues ≠ [] ∧
      analyze_issues resp =
        Outcome.ok (issuesMessage unresolved_issues (inactiveFilter unresolved_issues)) := by
  have hcol := collectUnresolvedIssues_of_ok resp.body hc
  have hresolved : issueResolved issue = false := by
    rw [issueResolved, List.any_eq_false]
    intro c hcmem
    simp [hunres c hcmem]
  have hmem2 : issue ∈ inactiveFilter (resp.body.filter (fun i => ! issueResolved i)) := by
    rw [inactiveFilter, List.mem_filter]
    refine ⟨?_, hstale⟩
    rw [List.mem_filter]
    exact ⟨hmem, by simp [hresolved]⟩
  have hf : fetch_data resp = FetchResult.ok resp.body := fetch_data_of_ok _ h200
  exact ⟨_, hcol, hmem2, List.ne_nil_of_mem hmem2, by simp [analyze_issues, hf, hcol]⟩

/-- C7 witness: a single unresolved issue with updated_at before
created_at. -/
theorem analyze_issues_unresolved_stale_inactive_witness :
    ∃ unresolved_issues,
      collectUnresolvedIssues staleIssues.body = Outcome.ok unresolved_issues ∧
      staleUnresolvedIssue ∈ inactiveFilter unresolved_issues ∧
      inactiveFilter unresolved_issues ≠ [] ∧
      analyze_issues staleIssues =
        Outcome.ok (issuesMessage unresolved_issues (inactiveFilter unresolved_issues)) :=
  analyze_issues_unresolved_stale_inactive staleIssues staleUnresolvedIssue (by decide)
    (by decide) (by decide) (by decide) (by decide)

/-- C8: when the README fetch fails with 404 and the run completes, the
documentation status is the "missing" message and the remediation step
creates exactly one ticket titled "Missing README.md or essential sections"
whose body is that message. -/
theorem readme_missing_single_ticket (w : World)
    (h404 : w.readme.status = 404)
    (hdone : (report_findings w).2 = none) :
    check_documentation w.readme = Outcome.ok "README.md file is missing." ∧
    ticketsTitled "Missing README.md or essential sections" (report_findings w).1 =
      [ Event.ticket "Missing README.md or essential sections" "README.md file is missing." ] := by
  have hf : fetch_data w.readme = FetchResult.httpError w.readme.status :=
    fetch_data_of_httpError _ (by omega) (by omega)
  have hdoc : check_documentation w.readme = Outcome.ok "README.md file is missing." := by
    simp [check_documentation, hf]
  refine ⟨hdoc, ?_⟩
  obtain ⟨d, i, p, s, l, hd, hi, hp, hs, hl⟩ := checks_ok_of_complete w hdone
  have hdd : Outcome.ok d = Outcome.ok "README.md file is missing." := hd.symm.trans hdoc
  have hd2 : d = "README.md file is missing." := by injection hdd
  subst hd2
  have hr := report_findings_of_ok w _ i p s l hd hi hp hs hl
  rw [hr]
  simp only [remediationTickets, ticketsTitled_append, map_check_ticketsTitled, List.nil_append]
  rw [ticketsTitled_ticketIf_self _ _ _ (by decide),
    ticketsTitled_ticketIf_ne _ _ _ _ (by decide),
    ticketsTitled_ticketIf_ne _ _ _ _ (by decide),
    ticketsTitled_ticketIf_ne _ _ _ _ (by decide),
    ticketsTitled_ticketIf_ne _ _ _ _ (by decide),
    ticketsTitled_ticketIf_ne _ _ _ _ (by decide),
    ticketsTitled_ticketIf_ne _ _ _ _ (by decide),
    ticketsTitled_ticketIf_ne _ _ _ _ (by decide),
    ticketsTitled_ticketIf_ne _ _ _ _ (by decide)]
  simp

/-- C8 witness: a concrete completing world with a 404 README. -/
theorem readme_missing_single_ticket_witness :
    check_documentation wNoReadme.readme = Outcome.ok "README.md file is missing." ∧
    ticketsTitled "Missing README.md or essential sections" (report_findings wNoReadme).1 =
      [ Event.ticket "Missing README.md or essential sections" "README.md file is missing." ] :=
  readme_missing_single_ticket wNoReadme (by decide) (by decide)

/-- C9: when the vulnerability summary fetch succeeds with total_count 3 and
the run completes, the security status is exactly "Found 3 security
vulnerabilities." and the remediation step creates exactly one ticket titled
"Security vulnerabilities detected" with that message as body. -/
theorem security_count_three_ticket (w : World)
    (h200 : w.security.status = 200)
    (h3 : w.security.body.total_count = 3)
    (hdone : (report_findings w).2 = none) :
    check_security w.security = Outcome.ok "Found 3 security vulnerabilities." ∧
    ticketsTitled "Security vulnerabilities detected" (report_findings w).1 =
      [ Event.ticket "Security vulnerabilities detected" "Found 3 security vulnerabilities." ] := by
  have hf : fetch_data w.security = FetchResult.ok w.security.body := fetch_data_of_ok _ h200
  have hsec : check_security w.security = Outcome.ok "Found 3 security vulnerabilities." := by
    simp [check_security, hf, h3]
    decide
  refine ⟨hsec, ?_⟩
  obtain ⟨d, i, p, s, l, hd, hi, hp, hs, hl⟩ := checks_ok_of_complete w hdone
  have hss : Outcome.ok s = Outcome.ok "Found 3 security vulnerabilities." := hs.symm.trans hsec
  have hs2 : s = "Found 3 security vulnerabilities." := by injection hss
  subst hs2
  have hr := report_findings_of_ok w d i p _ l hd hi hp hs hl
  rw [hr]
  simp only [remediationTickets, ticketsTitled_append, map_check_ticketsTitled, List.nil_append]
  rw [ticketsTitled_ticketIf_ne _ _ _ _ (by decide),
    ticketsTitled_ticketIf_ne _ _ _ _ (by decide),
    ticketsTitled_ticketIf_ne _ _ _ _ (by decide),
    ticketsTitled_ticketIf_self _ _ _ (by decide),
    ticketsTitled_ticketIf_ne _ _ _ _ (by decide),
    ticketsTitled_ticketIf_ne _ _ _ _ (by decide),
    ticketsTitled_ticketIf_ne _ _ _ _ (by decide),
    ticketsTitled_ticketIf_ne _ _ _ _ (by decide),
    ticketsTitled_ticketIf_ne _ _ _ _ (by decide)]
  simp

/-- C9 witness: a concrete completing world reporting three alerts. -/
theorem security_count_three_ticket_witness :
    check_security wSecurityThree.security = Outcome.ok "Found 3 security vulnerabilities." ∧
    ticketsTitled "Security vulnerabilities detected" (report_findings wSecurityThree).1 =
      [ Event.ticket "Security vulnerabilities detected" "Found 3 security vulnerabilities." ] :=
  security_count_three_ticket wSecurityThree (by decide) (by decide) (by decide)

/-- C10: when the vulnerability summary fetch fails with a 4xx/5xx status and
the run completes, the security status is the inconclusive "Could not
retrieve security vulnerabilities." message and the remediation step
nevertheless creates a ticket titled "Security vulnerabilities detected"
with that message as body, because the predicate is a case-insensitive
substring test for "security vulnerabilities" that the failure message also
satisfies. -/
theorem security_failure_still_ticket (w : World)
    (h400 : 400 ≤ w.security.status) (h599 : w.security.status ≤ 599)
    (hdone : (report_findings w).2 = none) :
    check_security w.security = Outcome.ok "Could not retrieve security vulnerabilities." ∧
    ticketsTitled "Security vulnerabilities detected" (report_findings w).1 =
      [ Event.ticket "Security vulnerabilities detected"
          "Could not retrieve security vulnerabilities." ] := by
  have hf : fetch_data w.security = FetchResult.httpError w.security.status :=
    fetch_data_of_httpError _ h400 h599
  have hsec : check_security w.security =
      Outcome.ok "Could not retrieve security vulnerabilities." := by
    simp [check_security, hf]
  refine ⟨hsec, ?_⟩
  obtain ⟨d, i, p, s, l, hd, hi, hp, hs, hl⟩ := checks_ok_of_complete w hdone
  have hss : Outcome.ok s = Outcome.ok "Could not retrieve security vulnerabilities." :=
    hs.symm.trans hsec
  have hs2 : s = "Could not retrieve security vulnerabilities." := by injection hss
  subst hs2
  have hr := report_findings_of_ok w d i p _ l hd hi hp hs hl
  rw [hr]
  simp only [remediationTickets, ticketsTitled_append, map_check_ticketsTitled, List.nil_append]
  rw [ticketsTitled_ticketIf_ne _ _ _ _ (by decide),
    ticketsTitled_ticketIf_ne _ _ _ _ (by decide),
    ticketsTitled_ticketIf_ne _ _ _ _ (by decide),
    ticketsTitled_ticketIf_self _ _ _ (by decide),
    ticketsTitled_ticketIf_ne _ _ _ _ (by decide),
    ticketsTitled_ticketIf_ne _ _ _ _ (by decide),
    ticketsTitled_ticketIf_ne _ _ _ _ (by decide),
    ticketsTitled_ticketIf_ne _ _ _ _ (by decide),
    ticketsTitled_ticketIf_ne _ _ _ _ (by decide)]
  simp

/-- C10 witness: a concrete completing world whose security fetch answers
500. -/
theorem security_failure_still_ticket_witness :
    check_security wSecurityDown.security =
      Outcome.ok "Could not retrieve security vulnerabilities." ∧
    ticketsTitled "Security vulnerabilities detected" (report_findings wSecurityDown).1 =
      [ Event.ticket "Security vulnerabilities detected"
          "Could not retrieve security vulnerabilities." ] :=
  security_failure_still_ticket wSecurityDown (by decide) (by decide) (by decide)
